import Mathlib

/-!
# Device service of the HVX neural-networks HAL (`1.0/Device.cpp`)

A shallow embedding of `Device.cpp`.  The stateful C++ is rendered in explicit
state-passing style over a `World` that holds

* the process-wide once-flag `configure_nnlib`,
* the single `Device` object with its field `mCurrentStatus`,
* the number of availability probes made so far (the index into the stream of
  answers of `hexagon::isHexagonAvailable`),
* the detached threads that have been created and have not run yet,
* an append-only trace of the observable actions (collaborator calls and
  callback invocations), in program order.

The collaborators whose code lives outside `Device.cpp` (`nn::validateModel`,
`hexagon::isHexagonAvailable`, the class `hexagon::Model`) are parameters,
collected in `Env`.
-/

namespace Hvx

/-! ## Data model -/

/-- The enumeration `ErrorStatus` of the HAL interface, with the four values that
`Device.cpp` names. -/
inductive ErrorStatus where
  | NONE
  | DEVICE_UNAVAILABLE
  | GENERAL_FAILURE
  | INVALID_ARGUMENT
  deriving DecidableEq, Repr

/-- Modelled from the spec: the enumeration `DeviceStatus`, declared in the HAL
interface and not in `Device.cpp`.  The specification lists the closed set
AVAILABLE, OFFLINE, BUSY; `Device.cpp` names the first two. -/
inductive DeviceStatus where
  | AVAILABLE
  | OFFLINE
  | BUSY
  deriving DecidableEq, Repr

/-- Modelled from the spec: the network description `Model`, declared in the HAL
interface and not in `Device.cpp`, which only passes it on.  The specification
describes a structural graph with a number of operations and leaves the rest
unspecified: it is kept as the list of its operations (by operation code) and
the remaining graph data. -/
structure Model where
  operations : List Nat
  graph : List Nat
  deriving DecidableEq, Repr

/-- The struct `PerformanceInfo`, with the two fields that `getCapabilities`
initialises.  The C++ fields are `float`; the only values `Device.cpp` ever
stores in them are the literals `100.0f` and `1.0f`, which are exact, and no
arithmetic is done on them, so the fields are rationals. -/
structure PerformanceInfo where
  execTime : ℚ
  powerUsage : ℚ
  deriving DecidableEq

/-- The struct `Capabilities`: one performance profile per numeric precision. -/
structure Capabilities where
  float32Performance : PerformanceInfo
  quantized8Performance : PerformanceInfo
  deriving DecidableEq

/-- The object behind a non-null `sp<IPreparedModelCallback>`, by identity. -/
abbrev Callback := Nat

/-- The object `PreparedModel(model, std::move(hexagonModel))`: the network description
together with the compiled `hexagon::Model`, whose state has type `H`. -/
structure PreparedModel (H : Type) where
  mNeuralNetworksModel : Model
  mHexagonModel : H
  deriving DecidableEq

/-- Observable actions of the service, in the order the code performs them. -/
inductive Event (H : Type) where
  /-- entry into `std::call_once(configure_nnlib, ...)` -/
  | callOnce
  /-- the once-body ran: `hexagon::Controller::getInstance().config()` -/
  | config
  /-- a call of `nn::validateModel(model)` and its answer -/
  | validateModel (model : Model) (result : Bool)
  /-- a call of `hexagon::isHexagonAvailable()` and its answer -/
  | isHexagonAvailable (result : Bool)
  /-- construction `hexagon::Model hexagonModel(model)` -/
  | hexagonModel (model : Model)
  /-- a call of `hexagonModel.supportedOperations()` -/
  | supportedOperations (h : H)
  /-- a call of `hexagonModel.compile()` and its answer -/
  | compile (h : H) (result : Bool)
  /-- allocation `new PreparedModel(...)` -/
  | newPreparedModel (p : PreparedModel H)
  /-- invocation `_hidl_cb(status, capabilities)` in `getCapabilities` -/
  | getCapabilities_cb (status : ErrorStatus) (capabilities : Capabilities)
  /-- invocation `_hidl_cb(status, supported)` in `getSupportedOperations` -/
  | getSupportedOperations_cb (status : ErrorStatus) (supported : List Bool)
  /-- invocation `callback->notify(status, preparedModel)`; `none` is `nullptr` -/
  | notify (callback : Callback) (status : ErrorStatus) (preparedModel : Option (PreparedModel H))
  /-- creation of the detached `std::thread` capturing `model` and `callback` -/
  | thread (model : Model) (callback : Callback)
  deriving DecidableEq

/-- The collaborators of `Device.cpp`.  `H` is the state of a `hexagon::Model`.
`isHexagonAvailable n` is the answer of the `n`-th availability probe made in
the process (the accelerator may come and go between probes). -/
structure Env (H : Type) where
  validateModel : Model → Bool
  isHexagonAvailable : Nat → Bool
  hexagonModel : Model → H
  supportedOperations : H → List Bool
  compile : H → Bool × H

/-- The class `Device`: its only data member. -/
structure Device where
  mCurrentStatus : DeviceStatus
  deriving DecidableEq, Repr

/-- The constructor: `Device::Device() : mCurrentStatus(DeviceStatus::AVAILABLE) {}`. -/
def Device.new : Device :=
  { mCurrentStatus := DeviceStatus.AVAILABLE }

/-- Process state. -/
structure World (H : Type) where
  /-- whether `static std::once_flag configure_nnlib` has been set -/
  configure_nnlib : Bool
  /-- the service object -/
  device : Device
  /-- how many times `isHexagonAvailable` has been called -/
  probes : Nat
  /-- detached threads created and not yet run: the captured `model`, `callback` -/
  threads : List (Model × Callback)
  /-- everything observable that happened, oldest first -/
  trace : List (Event H)
  deriving DecidableEq

/-- A freshly started service process: flag unset, `Device` just constructed. -/
def World.boot (H : Type) : World H :=
  { configure_nnlib := false, device := Device.new, probes := 0, threads := [], trace := [] }

variable {H : Type}

/-- Append one action to the trace. -/
def emit (e : Event H) (w : World H) : World H :=
  { w with trace := w.trace ++ [e] }

/-! ## The code of `Device.cpp` -/

/-- The function `configureHexagon`:
`std::call_once(configure_nnlib, [](){ hexagon::Controller::getInstance().config(); })`. -/
def configureHexagon (w : World H) : World H :=
  let w := emit Event.callOnce w
  if w.configure_nnlib then w
  else emit Event.config { w with configure_nnlib := true }

/-- A call of `nn::validateModel(model)`. -/
def validateModel (env : Env H) (model : Model) (w : World H) : Bool × World H :=
  let r := env.validateModel model
  (r, emit (Event.validateModel model r) w)

/-- A call of `hexagon::isHexagonAvailable()`: consumes the next probe answer. -/
def isHexagonAvailable (env : Env H) (w : World H) : Bool × World H :=
  let r := env.isHexagonAvailable w.probes
  (r, emit (Event.isHexagonAvailable r) { w with probes := w.probes + 1 })

/-- The declaration `hexagon::Model hexagonModel(model);`. -/
def hexagonModel (env : Env H) (model : Model) (w : World H) : H × World H :=
  (env.hexagonModel model, emit (Event.hexagonModel model) w)

/-- A call of `hexagonModel.supportedOperations()`. -/
def supportedOperations (env : Env H) (h : H) (w : World H) : List Bool × World H :=
  (env.supportedOperations h, emit (Event.supportedOperations h) w)

/-- A call of `hexagonModel.compile()`: the answer and the builder afterwards. -/
def compile (env : Env H) (h : H) (w : World H) : Bool × H × World H :=
  let r := env.compile h
  (r.1, r.2, emit (Event.compile h r.1) w)

/-- The method `Device::getCapabilities` (lines 42-66). -/
def getCapabilities (env : Env H) (w : World H) : World H :=
  let w := configureHexagon w
  let float32Performance : PerformanceInfo := { execTime := 100, powerUsage := 1 }
  let quantized8Performance : PerformanceInfo := { execTime := 100, powerUsage := 1 }
  let capabilities : Capabilities :=
    { float32Performance := float32Performance
      quantized8Performance := quantized8Performance }
  let (available, w) := isHexagonAvailable env w
  let status := if available then ErrorStatus.NONE else ErrorStatus.DEVICE_UNAVAILABLE
  emit (Event.getCapabilities_cb status capabilities) w

/-- The method `Device::getSupportedOperations` (lines 68-87). -/
def getSupportedOperations (env : Env H) (model : Model) (w : World H) : World H :=
  let w := configureHexagon w
  let (valid, w) := validateModel env model w
  if !valid then
    emit (Event.getSupportedOperations_cb ErrorStatus.INVALID_ARGUMENT []) w
  else
    let (available, w) := isHexagonAvailable env w
    if !available then
      emit (Event.getSupportedOperations_cb ErrorStatus.DEVICE_UNAVAILABLE []) w
    else
      let (hexagonModel, w) := hexagonModel env model w
      let (supported, w) := supportedOperations env hexagonModel w
      emit (Event.getSupportedOperations_cb ErrorStatus.NONE supported) w

/-- The method `Device::asyncPrepare` (lines 89-98).  Its `callback` is the
non-null pointer captured by the thread that `prepareModel` creates. -/
def asyncPrepare (env : Env H) (model : Model) (callback : Callback) (w : World H) : World H :=
  let (hexagonModel, w) := hexagonModel env model w
  let (ok, hexagonModel, w) := compile env hexagonModel w
  if ok then
    let preparedModel : PreparedModel H :=
      { mNeuralNetworksModel := model, mHexagonModel := hexagonModel }
    let w := emit (Event.newPreparedModel preparedModel) w
    emit (Event.notify callback ErrorStatus.NONE (some preparedModel)) w
  else
    emit (Event.notify callback ErrorStatus.GENERAL_FAILURE none) w

/-- The method `Device::prepareModel` (lines 100-123).  `callback = none` is a
null `sp`; the detached thread is recorded in `threads` and runs later. -/
def prepareModel (env : Env H) (model : Model) (callback : Option Callback) (w : World H) :
    ErrorStatus × World H :=
  let w := configureHexagon w
  match callback with
  | none => (ErrorStatus.INVALID_ARGUMENT, w)
  | some cb =>
    let (valid, w) := validateModel env model w
    if !valid then
      (ErrorStatus.INVALID_ARGUMENT,
        emit (Event.notify cb ErrorStatus.INVALID_ARGUMENT none) w)
    else
      let (available, w) := isHexagonAvailable env w
      if !available then
        (ErrorStatus.DEVICE_UNAVAILABLE,
          emit (Event.notify cb ErrorStatus.DEVICE_UNAVAILABLE none) w)
      else
        (ErrorStatus.NONE,
          emit (Event.thread model cb) { w with threads := w.threads ++ [(model, cb)] })

/-- The method `Device::getStatus` (lines 125-131). -/
def getStatus (env : Env H) (w : World H) : DeviceStatus × World H :=
  let w := configureHexagon w
  let (available, w) := isHexagonAvailable env w
  let w := { w with device := { mCurrentStatus :=
    if available then DeviceStatus.AVAILABLE else DeviceStatus.OFFLINE } }
  (w.device.mCurrentStatus, w)

/-! ## Sequences of calls -/

/-- One call of a public entry point, with its arguments. -/
inductive Call where
  | getCapabilities
  | getSupportedOperations (model : Model)
  | prepareModel (model : Model) (callback : Option Callback)
  | getStatus
  deriving DecidableEq

/-- What a call hands back through its return value. -/
inductive Ret where
  | void
  | errorStatus (e : ErrorStatus)
  | deviceStatus (d : DeviceStatus)
  deriving DecidableEq

/-- Perform one entry-point call. -/
def call (env : Env H) (c : Call) (w : World H) : Ret × World H :=
  match c with
  | Call.getCapabilities => (Ret.void, getCapabilities env w)
  | Call.getSupportedOperations model => (Ret.void, getSupportedOperations env model w)
  | Call.prepareModel model callback =>
    let r := prepareModel env model callback w
    (Ret.errorStatus r.1, r.2)
  | Call.getStatus =>
    let r := getStatus env w
    (Ret.deviceStatus r.1, r.2)

/-- The detached thread at position `i` of the pending list runs its body,
`asyncPrepare(model, callback)`, to completion.  No thread there: nothing happens. -/
def runThread (env : Env H) (i : Nat) (w : World H) : World H :=
  match w.threads[i]? with
  | none => w
  | some (model, callback) =>
    asyncPrepare env model callback { w with threads := w.threads.eraseIdx i }

/-- A step of the service: an entry-point call, or a pending background thread
running to completion. -/
inductive Step where
  | call (c : Call)
  | thread (i : Nat)
  deriving DecidableEq

/-- Perform one step. -/
def step (env : Env H) (s : Step) (w : World H) : Ret × World H :=
  match s with
  | Step.call c => call env c w
  | Step.thread i => (Ret.void, runThread env i w)

/-- Perform a finite sequence of steps, collecting the return values in order. -/
def exec (env : Env H) : List Step → World H → List Ret × World H
  | [], w => ([], w)
  | s :: ss, w =>
    let r := step env s w
    let rest := exec env ss r.2
    (r.1 :: rest.1, rest.2)

/-! ## Observations on the trace -/

/-- The actions performed between world `w` and a later world `w1`. -/
def since (w w1 : World H) : List (Event H) :=
  w1.trace.drop w.trace.length

/-- Is the action a run of `Controller::config`. -/
def Event.isConfig : Event H → Bool
  | Event.config => true
  | _ => false

/-- Is the action a call of `nn::validateModel`. -/
def Event.isValidate : Event H → Bool
  | Event.validateModel _ _ => true
  | _ => false

/-- Is the action an availability probe. -/
def Event.isProbe : Event H → Bool
  | Event.isHexagonAvailable _ => true
  | _ => false

/-- Is the action the construction of a `hexagon::Model`. -/
def Event.isBuilder : Event H → Bool
  | Event.hexagonModel _ => true
  | _ => false

/-- Is the action a call of `compile`. -/
def Event.isCompile : Event H → Bool
  | Event.compile _ _ => true
  | _ => false

/-- Is the action the allocation of a `PreparedModel`. -/
def Event.isNewPreparedModel : Event H → Bool
  | Event.newPreparedModel _ => true
  | _ => false

/-- Is the action an invocation of a result callback `_hidl_cb`. -/
def Event.isHidlCb : Event H → Bool
  | Event.getCapabilities_cb _ _ => true
  | Event.getSupportedOperations_cb _ _ => true
  | _ => false

/-- Is the action an invocation of `notify`, on any callback. -/
def Event.isNotify : Event H → Bool
  | Event.notify _ _ _ => true
  | _ => false

/-- Is the action the creation of a detached thread. -/
def Event.isThread : Event H → Bool
  | Event.thread _ _ => true
  | _ => false

/-- How many of the actions satisfy `p`. -/
def count (p : Event H → Bool) (es : List (Event H)) : Nat :=
  (es.filter p).length

/-- The `notify` invocations among the actions, as (callback, status, artifact). -/
def notifications : List (Event H) → List (Callback × ErrorStatus × Option (PreparedModel H))
  | [] => []
  | Event.notify cb s a :: es => (cb, s, a) :: notifications es
  | _ :: es => notifications es

/-- The `_hidl_cb` invocations of `getSupportedOperations` among the actions. -/
def supportedResults : List (Event H) → List (ErrorStatus × List Bool)
  | [] => []
  | Event.getSupportedOperations_cb s m :: es => (s, m) :: supportedResults es
  | _ :: es => supportedResults es

/-- The `_hidl_cb` invocations of `getCapabilities` among the actions. -/
def capabilityResults : List (Event H) → List (ErrorStatus × Capabilities)
  | [] => []
  | Event.getCapabilities_cb s c :: es => (s, c) :: capabilityResults es
  | _ :: es => capabilityResults es

/-! ## Concrete collaborators, for evaluating the code on explicit inputs -/

/-- A network description with two operations. -/
def sampleModel : Model :=
  { operations := [0, 3], graph := [0, 1, 2] }

/-- Collaborators with fixed answers: validation answers `valid`, the `n`-th
probe answers `answers[n]` (unreachable once the list is used up), compilation
answers `compiles`.  The builder state is a number: the operation count on
construction, one more after `compile`. -/
def sampleEnv (valid : Bool) (answers : List Bool) (compiles : Bool) : Env Nat :=
  { validateModel := fun _ => valid
    isHexagonAvailable := fun n => answers.getD n false
    hexagonModel := fun m => m.operations.length
    supportedOperations := fun h => List.replicate h true
    compile := fun h => (compiles, h + 1) }

/-! ## Basic facts -/

/-- Removing the element just appended gives the list back. -/
theorem eraseIdx_length_append_singleton {α : Type} (l : List α) (a : α) :
    (l ++ [a]).eraseIdx l.length = l := by
  induction l with
  | nil => rfl
  | cons x xs ih => simp [List.eraseIdx, ih]

/-! ## C1: the preparation callback fires exactly once -/

/-- C1. For a `prepareModel` request with a non-null callback `cb`, whatever
validation, the availability probe and compilation answer: the return value is
INVALID_ARGUMENT, DEVICE_UNAVAILABLE or NONE; if it is not NONE, `notify` was
invoked once before the return, no thread was created and there is nothing to
run afterwards; if it is NONE, `notify` was not invoked before the return,
exactly one thread was created, capturing `(model, cb)`, and its body
`asyncPrepare` invokes `notify` exactly once; in total, from the call until the
created thread (if any) has run to completion, `notify` is invoked exactly
once, on `cb`, and no created thread is left pending. -/
theorem prepareModel_notify_exactly_once (env : Env H) (model : Model) (cb : Callback)
    (w : World H) :
    let r := prepareModel env model (some cb) w
    let done := runThread env w.threads.length r.2
    (r.1 = ErrorStatus.INVALID_ARGUMENT ∨ r.1 = ErrorStatus.DEVICE_UNAVAILABLE ∨
      r.1 = ErrorStatus.NONE) ∧
    (r.1 ≠ ErrorStatus.NONE →
      count Event.isNotify (since w r.2) = 1 ∧
      count Event.isThread (since w r.2) = 0 ∧ r.2.threads = w.threads ∧ done = r.2) ∧
    (r.1 = ErrorStatus.NONE →
      count Event.isNotify (since w r.2) = 0 ∧
      count Event.isThread (since w r.2) = 1 ∧
      r.2.threads = w.threads ++ [(model, cb)] ∧
      done = asyncPrepare env model cb { r.2 with threads := w.threads } ∧
      count Event.isNotify (since r.2 done) = 1) ∧
    count Event.isNotify (since w done) = 1 ∧
    (notifications (since w done)).map (fun n => n.1) = [cb] ∧
    done.threads = w.threads := by
  intro r done
  cases hf : w.configure_nnlib <;> cases hv : env.validateModel model <;>
    cases ha : env.isHexagonAvailable w.probes <;>
    cases hc : (env.compile (env.hexagonModel model)).1 <;>
    simp [r, done, prepareModel, configureHexagon, validateModel, isHexagonAvailable, emit, since,
      count, hf, hv, ha, hc, Event.isNotify, Event.isThread, runThread, asyncPrepare,
      hexagonModel, compile, notifications, eraseIdx_length_append_singleton]

/-- C1 on an accepted request whose compilation fails, in a fresh process: the
return value is NONE, nothing is notified before the return, and the thread
notifies once. -/
theorem prepareModel_notify_exactly_once_witness :
    (prepareModel (sampleEnv true [true] false) sampleModel (some 7) (World.boot Nat)).1
        = ErrorStatus.NONE ∧
      count Event.isNotify (since (World.boot Nat)
        (prepareModel (sampleEnv true [true] false) sampleModel (some 7) (World.boot Nat)).2) = 0 ∧
      count Event.isNotify (since (World.boot Nat)
        (runThread (sampleEnv true [true] false) 0
          (prepareModel (sampleEnv true [true] false) sampleModel (some 7) (World.boot Nat)).2))
        = 1 :=
  have h := prepareModel_notify_exactly_once (sampleEnv true [true] false) sampleModel 7
    (World.boot Nat)
  ⟨by decide, (h.2.2.1 (by decide)).1, h.2.2.2.1⟩

/-! ## C2: a malformed description is INVALID_ARGUMENT, and nothing else is tried -/

/-- C2. When `validateModel` rejects the description, then for every probe
stream, every world and every callback argument (null or not):
`getSupportedOperations` invokes its result callback once, with
INVALID_ARGUMENT and the empty mask, and `prepareModel` returns
INVALID_ARGUMENT (never DEVICE_UNAVAILABLE) and notifies a non-null callback
with (INVALID_ARGUMENT, null) only; in both operations no availability probe
is made, no `hexagon::Model` is constructed, `compile` is not called and no
thread is created. -/
theorem invalid_model_is_INVALID_ARGUMENT (env : Env H) (model : Model)
    (callback : Option Callback) (w : World H) (hv : env.validateModel model = false) :
    (supportedResults (since w (getSupportedOperations env model w))
        = [(ErrorStatus.INVALID_ARGUMENT, [])] ∧
      count Event.isHidlCb (since w (getSupportedOperations env model w)) = 1 ∧
      count Event.isProbe (since w (getSupportedOperations env model w)) = 0 ∧
      (getSupportedOperations env model w).probes = w.probes ∧
      count Event.isBuilder (since w (getSupportedOperations env model w)) = 0 ∧
      count Event.isCompile (since w (getSupportedOperations env model w)) = 0 ∧
      count Event.isThread (since w (getSupportedOperations env model w)) = 0 ∧
      (getSupportedOperations env model w).threads = w.threads) ∧
    ((prepareModel env model callback w).1 = ErrorStatus.INVALID_ARGUMENT ∧
      (prepareModel env model callback w).1 ≠ ErrorStatus.DEVICE_UNAVAILABLE ∧
      notifications (since w (prepareModel env model callback w).2)
        = (match callback with
           | none => []
           | some cb => [(cb, ErrorStatus.INVALID_ARGUMENT, none)]) ∧
      count Event.isProbe (since w (prepareModel env model callback w).2) = 0 ∧
      (prepareModel env model callback w).2.probes = w.probes ∧
      count Event.isBuilder (since w (prepareModel env model callback w).2) = 0 ∧
      count Event.isCompile (since w (prepareModel env model callback w).2) = 0 ∧
      count Event.isThread (since w (prepareModel env model callback w).2) = 0 ∧
      (prepareModel env model callback w).2.threads = w.threads) := by
  cases hf : w.configure_nnlib <;> cases callback <;>
    simp [getSupportedOperations, prepareModel, configureHexagon, validateModel, emit, since,
      count, hf, hv, Event.isHidlCb, Event.isProbe, Event.isBuilder, Event.isCompile,
      Event.isThread, supportedResults, notifications]

/-- C2 on a malformed description submitted while the accelerator is also
unreachable: `prepareModel` answers INVALID_ARGUMENT and makes no probe. -/
theorem invalid_model_is_INVALID_ARGUMENT_witness :
    (sampleEnv false [false] true).validateModel sampleModel = false ∧
      (sampleEnv false [false] true).isHexagonAvailable (World.boot Nat).probes = false ∧
      (prepareModel (sampleEnv false [false] true) sampleModel (some 7) (World.boot Nat)).1
        = ErrorStatus.INVALID_ARGUMENT ∧
      count Event.isProbe (since (World.boot Nat)
        (prepareModel (sampleEnv false [false] true) sampleModel (some 7) (World.boot Nat)).2)
        = 0 :=
  have h := invalid_model_is_INVALID_ARGUMENT (sampleEnv false [false] true) sampleModel
    (some 7) (World.boot Nat) (by decide)
  ⟨by decide, by decide, h.2.1, h.2.2.2.2.1⟩

/-! ## C3: a valid description while the accelerator is unreachable -/

/-- C3, as stated, fails for the null callback: with a description that passes
validation and an unreachable accelerator, `prepareModel` called with a null
callback returns INVALID_ARGUMENT, not DEVICE_UNAVAILABLE. -/
theorem unavailable_null_callback_counterexample :
    (sampleEnv true [false] true).validateModel sampleModel = true ∧
      (sampleEnv true [false] true).isHexagonAvailable (World.boot Nat).probes = false ∧
      (prepareModel (sampleEnv true [false] true) sampleModel none (World.boot Nat)).1
        = ErrorStatus.INVALID_ARGUMENT ∧
      (prepareModel (sampleEnv true [false] true) sampleModel none (World.boot Nat)).1
        ≠ ErrorStatus.DEVICE_UNAVAILABLE := by
  decide

/-- C3, amended. When the description passes validation and the availability
probe answers false: `getSupportedOperations` invokes its result callback once,
with DEVICE_UNAVAILABLE and the empty mask; `prepareModel` called with a
non-null callback `cb` returns DEVICE_UNAVAILABLE, and before it returns
`notify` has been invoked exactly once, on `cb`, with (DEVICE_UNAVAILABLE,
null); `prepareModel` called with a null callback returns INVALID_ARGUMENT and
invokes nothing; in all three cases no thread is created, no `hexagon::Model`
is constructed and `compile` is not called. -/
theorem unavailable_is_DEVICE_UNAVAILABLE (env : Env H) (model : Model) (cb : Callback)
    (w : World H) (hv : env.validateModel model = true)
    (ha : env.isHexagonAvailable w.probes = false) :
    (supportedResults (since w (getSupportedOperations env model w))
        = [(ErrorStatus.DEVICE_UNAVAILABLE, [])] ∧
      count Event.isHidlCb (since w (getSupportedOperations env model w)) = 1 ∧
      count Event.isBuilder (since w (getSupportedOperations env model w)) = 0 ∧
      count Event.isCompile (since w (getSupportedOperations env model w)) = 0 ∧
      (getSupportedOperations env model w).threads = w.threads) ∧
    ((prepareModel env model (some cb) w).1 = ErrorStatus.DEVICE_UNAVAILABLE ∧
      notifications (since w (prepareModel env model (some cb) w).2)
        = [(cb, ErrorStatus.DEVICE_UNAVAILABLE, none)] ∧
      count Event.isThread (since w (prepareModel env model (some cb) w).2) = 0 ∧
      (prepareModel env model (some cb) w).2.threads = w.threads ∧
      count Event.isBuilder (since w (prepareModel env model (some cb) w).2) = 0 ∧
      count Event.isCompile (since w (prepareModel env model (some cb) w).2) = 0) ∧
    ((prepareModel env model none w).1 = ErrorStatus.INVALID_ARGUMENT ∧
      notifications (since w (prepareModel env model none w).2) = [] ∧
      count Event.isThread (since w (prepareModel env model none w).2) = 0 ∧
      (prepareModel env model none w).2.threads = w.threads ∧
      count Event.isBuilder (since w (prepareModel env model none w).2) = 0 ∧
      count Event.isCompile (since w (prepareModel env model none w).2) = 0) := by
  cases hf : w.configure_nnlib <;>
    simp [getSupportedOperations, prepareModel, configureHexagon, validateModel,
      isHexagonAvailable, emit, since, count, hf, hv, ha, Event.isHidlCb, Event.isBuilder,
      Event.isCompile, Event.isThread, supportedResults, notifications]

/-- C3, amended, on a valid description with the accelerator unreachable: the
non-null callback 7 is notified once with (DEVICE_UNAVAILABLE, null). -/
theorem unavailable_is_DEVICE_UNAVAILABLE_witness :
    (sampleEnv true [false] true).validateModel sampleModel = true ∧
      (sampleEnv true [false] true).isHexagonAvailable (World.boot Nat).probes = false ∧
      (prepareModel (sampleEnv true [false] true) sampleModel (some 7) (World.boot Nat)).1
        = ErrorStatus.DEVICE_UNAVAILABLE ∧
      notifications (since (World.boot Nat)
        (prepareModel (sampleEnv true [false] true) sampleModel (some 7) (World.boot Nat)).2)
        = [(7, ErrorStatus.DEVICE_UNAVAILABLE, none)] :=
  have h := unavailable_is_DEVICE_UNAVAILABLE (sampleEnv true [false] true) sampleModel 7
    (World.boot Nat) (by decide) (by decide)
  ⟨by decide, by decide, h.2.1.1, h.2.1.2.1⟩

/-! ## C4: the null callback -/

/-- C4. For every description, valid or not, and every probe stream,
`prepareModel` called with a null callback returns INVALID_ARGUMENT; it invokes
no callback, does not call `validateModel`, makes no availability probe,
creates no thread, and leaves the `Device` object, hence the stored status,
unchanged. -/
theorem prepareModel_null_callback (env : Env H) (model : Model) (w : World H) :
    (prepareModel env model none w).1 = ErrorStatus.INVALID_ARGUMENT ∧
    count Event.isNotify (since w (prepareModel env model none w).2) = 0 ∧
    count Event.isHidlCb (since w (prepareModel env model none w).2) = 0 ∧
    count Event.isValidate (since w (prepareModel env model none w).2) = 0 ∧
    count Event.isProbe (since w (prepareModel env model none w).2) = 0 ∧
    (prepareModel env model none w).2.probes = w.probes ∧
    count Event.isThread (since w (prepareModel env model none w).2) = 0 ∧
    (prepareModel env model none w).2.threads = w.threads ∧
    (prepareModel env model none w).2.device.mCurrentStatus = w.device.mCurrentStatus := by
  cases hf : w.configure_nnlib <;>
    simp [prepareModel, configureHexagon, emit, since, count, hf, Event.isNotify,
      Event.isHidlCb, Event.isValidate, Event.isProbe, Event.isThread]

/-! ## C5: what the background task delivers -/

/-- C5. For a request that is admitted (non-null callback `cb`, the description
passes validation, the probe answers true): `prepareModel` returns NONE and
creates one thread capturing `(model, cb)`; the whole result of `prepareModel`
is the same whatever the `compile` collaborator is, so the returned NONE does
not depend on the compilation outcome; running the created thread is running
`asyncPrepare model cb`.  In whatever world `w2` the thread body
`asyncPrepare model cb` later runs, it constructs one `hexagon::Model` over
`model` and calls `compile` on it exactly once; if `compile` answers true it
allocates one `PreparedModel` holding `model` and the builder as `compile` left
it, and notifies `cb` once with (NONE, that artifact); if `compile` answers
false it allocates no `PreparedModel` and notifies `cb` once with
(GENERAL_FAILURE, null). -/
theorem admitted_request_is_compiled_in_background (env : Env H) (model : Model)
    (cb : Callback) (w w2 : World H) (hv : env.validateModel model = true)
    (ha : env.isHexagonAvailable w.probes = true) :
    ((prepareModel env model (some cb) w).1 = ErrorStatus.NONE ∧
      (prepareModel env model (some cb) w).2.threads = w.threads ++ [(model, cb)] ∧
      count Event.isCompile (since w (prepareModel env model (some cb) w).2) = 0 ∧
      runThread env w.threads.length (prepareModel env model (some cb) w).2
        = asyncPrepare env model cb
            { (prepareModel env model (some cb) w).2 with threads := w.threads } ∧
      ∀ compile2 : H → Bool × H,
        prepareModel { env with compile := compile2 } model (some cb) w
          = prepareModel env model (some cb) w) ∧
    (since w2 (asyncPrepare env model cb w2)
      = if (env.compile (env.hexagonModel model)).1 then
          [Event.hexagonModel model,
           Event.compile (env.hexagonModel model) true,
           Event.newPreparedModel
             { mNeuralNetworksModel := model
               mHexagonModel := (env.compile (env.hexagonModel model)).2 },
           Event.notify cb ErrorStatus.NONE
             (some { mNeuralNetworksModel := model
                     mHexagonModel := (env.compile (env.hexagonModel model)).2 })]
        else
          [Event.hexagonModel model,
           Event.compile (env.hexagonModel model) false,
           Event.notify cb ErrorStatus.GENERAL_FAILURE none]) ∧
    (count Event.isBuilder (since w2 (asyncPrepare env model cb w2)) = 1 ∧
      count Event.isCompile (since w2 (asyncPrepare env model cb w2)) = 1 ∧
      notifications (since w2 (asyncPrepare env model cb w2))
        = (if (env.compile (env.hexagonModel model)).1 then
            [(cb, ErrorStatus.NONE,
              some { mNeuralNetworksModel := model
                     mHexagonModel := (env.compile (env.hexagonModel model)).2 })]
          else [(cb, ErrorStatus.GENERAL_FAILURE, none)]) ∧
      count Event.isNewPreparedModel (since w2 (asyncPrepare env model cb w2))
        = (if (env.compile (env.hexagonModel model)).1 then 1 else 0)) := by
  cases hf : w.configure_nnlib <;>
    cases hc : (env.compile (env.hexagonModel model)).1 <;>
    simp [prepareModel, configureHexagon, validateModel, isHexagonAvailable, emit, since, count,
      hf, hv, ha, hc, Event.isCompile, Event.isBuilder, Event.isNewPreparedModel,
      asyncPrepare, hexagonModel, compile, notifications, runThread,
      eraseIdx_length_append_singleton]

/-- C5 on an admitted request whose compilation succeeds: the callback 7
receives NONE and an artifact over the submitted description. -/
theorem admitted_request_is_compiled_in_background_witness :
    (sampleEnv true [true] true).validateModel sampleModel = true ∧
      (sampleEnv true [true] true).isHexagonAvailable (World.boot Nat).probes = true ∧
      (prepareModel (sampleEnv true [true] true) sampleModel (some 7) (World.boot Nat)).1
        = ErrorStatus.NONE ∧
      notifications (since (World.boot Nat)
          (asyncPrepare (sampleEnv true [true] true) sampleModel 7 (World.boot Nat)))
        = [(7, ErrorStatus.NONE,
            some { mNeuralNetworksModel := sampleModel, mHexagonModel := 3 })] :=
  have h := admitted_request_is_compiled_in_background (sampleEnv true [true] true)
    sampleModel 7 (World.boot Nat) (World.boot Nat) (by decide) (by decide)
  ⟨by decide, by decide, h.1.1, h.2.2.2.2.1⟩

/-! ## C6: the support query -/

/-- C6. `getSupportedOperations` invokes its result callback exactly once on
every path and never calls `compile`.  When the description passes validation
and the probe answers true, the one result is status NONE with exactly the
list that `supportedOperations` returns on the `hexagon::Model` built over the
description; hence, if the collaborator returns one boolean per operation, the
reported mask is as long as the list of operations of the description. -/
theorem getSupportedOperations_reports_builder_mask (env : Env H) (model : Model)
    (w : World H) :
    count Event.isHidlCb (since w (getSupportedOperations env model w)) = 1 ∧
    (supportedResults (since w (getSupportedOperations env model w))).length = 1 ∧
    count Event.isCompile (since w (getSupportedOperations env model w)) = 0 ∧
    (env.validateModel model = true → env.isHexagonAvailable w.probes = true →
      supportedResults (since w (getSupportedOperations env model w))
        = [(ErrorStatus.NONE, env.supportedOperations (env.hexagonModel model))] ∧
      ((∀ m : Model,
          (env.supportedOperations (env.hexagonModel m)).length = m.operations.length) →
        ∀ r ∈ supportedResults (since w (getSupportedOperations env model w)),
          r.1 = ErrorStatus.NONE ∧ r.2.length = model.operations.length)) := by
  cases hf : w.configure_nnlib <;> cases hv : env.validateModel model <;>
    cases ha : env.isHexagonAvailable w.probes <;>
    simp [getSupportedOperations, configureHexagon, validateModel, isHexagonAvailable, emit,
      since, count, hf, hv, ha, Event.isHidlCb, Event.isCompile, hexagonModel,
      supportedOperations, supportedResults] <;>
    intro hlen <;> exact hlen model

/-- C6 on the two-operation sample description, valid and reachable: the
reported mask is the mask of the builder, two entries long. -/
theorem getSupportedOperations_reports_builder_mask_witness :
    (sampleEnv true [true] true).validateModel sampleModel = true ∧
      (sampleEnv true [true] true).isHexagonAvailable (World.boot Nat).probes = true ∧
      supportedResults (since (World.boot Nat)
          (getSupportedOperations (sampleEnv true [true] true) sampleModel (World.boot Nat)))
        = [(ErrorStatus.NONE, [true, true])] ∧
      ∀ r ∈ supportedResults (since (World.boot Nat)
          (getSupportedOperations (sampleEnv true [true] true) sampleModel (World.boot Nat))),
        r.1 = ErrorStatus.NONE ∧ r.2.length = sampleModel.operations.length :=
  have h := (getSupportedOperations_reports_builder_mask (sampleEnv true [true] true)
    sampleModel (World.boot Nat)).2.2.2 (by decide) (by decide)
  ⟨by decide, by decide, h.1, h.2 (fun m => by simp [sampleEnv])⟩

/-! ## C7: the status query -/

/-- C7. Whatever status was stored before, `getStatus` makes exactly one
availability probe, returns AVAILABLE if the probe answers true and OFFLINE
otherwise, and stores what it returns; overwriting the previously stored status
with any value `s0` changes neither the returned value nor the stored one.
Consequently, for two `getStatus` calls in a row whose probes answer true and
then false, the first returns AVAILABLE and the second returns OFFLINE. -/
theorem getStatus_reflects_probe (env : Env H) (w : World H) (s0 : DeviceStatus) :
    count Event.isProbe (since w (getStatus env w).2) = 1 ∧
    (getStatus env w).2.probes = w.probes + 1 ∧
    (getStatus env w).1
      = (if env.isHexagonAvailable w.probes then DeviceStatus.AVAILABLE
         else DeviceStatus.OFFLINE) ∧
    (getStatus env w).2.device.mCurrentStatus = (getStatus env w).1 ∧
    (getStatus env { w with device := { mCurrentStatus := s0 } }).1 = (getStatus env w).1 ∧
    (getStatus env { w with device := { mCurrentStatus := s0 } }).2.device
      = (getStatus env w).2.device ∧
    (env.isHexagonAvailable w.probes = true →
      env.isHexagonAvailable (w.probes + 1) = false →
      (getStatus env w).1 = DeviceStatus.AVAILABLE ∧
      (getStatus env (getStatus env w).2).1 = DeviceStatus.OFFLINE ∧
      (getStatus env (getStatus env w).2).2.device.mCurrentStatus = DeviceStatus.OFFLINE) := by
  cases hf : w.configure_nnlib <;> cases ha : env.isHexagonAvailable w.probes <;>
    simp [getStatus, configureHexagon, isHexagonAvailable, emit, since, count, hf, ha,
      Event.isProbe]

/-- C7 on a probe stream answering true, then false, starting from a stored
status BUSY: the two calls return AVAILABLE, then OFFLINE. -/
theorem getStatus_reflects_probe_witness :
    (sampleEnv true [true, false] true).isHexagonAvailable 0 = true ∧
      (sampleEnv true [true, false] true).isHexagonAvailable (0 + 1) = false ∧
      (getStatus (sampleEnv true [true, false] true)
        { World.boot Nat with device := { mCurrentStatus := DeviceStatus.BUSY } }).1
        = DeviceStatus.AVAILABLE ∧
      (getStatus (sampleEnv true [true, false] true)
        (getStatus (sampleEnv true [true, false] true)
          { World.boot Nat with device := { mCurrentStatus := DeviceStatus.BUSY } }).2).1
        = DeviceStatus.OFFLINE :=
  have h := (getStatus_reflects_probe (sampleEnv true [true, false] true)
    { World.boot Nat with device := { mCurrentStatus := DeviceStatus.BUSY } }
    DeviceStatus.AVAILABLE).2.2.2.2.2.2 (by decide) (by decide)
  ⟨by decide, by decide, h.1, h.2.1⟩

/-! ## C8: the capability query -/

/-- C8. `getCapabilities` invokes its result callback exactly once; the status
it passes is NONE if the probe answers true and DEVICE_UNAVAILABLE otherwise
(so it is NONE exactly when the accelerator is reachable); the report it passes
is the same for every world and every collaborator: both profiles have
execution time 100 and power usage 1, so all four numbers are non-negative;
the `Device` object, hence the stored status, is unchanged. -/
theorem getCapabilities_report (env : Env H) (w : World H) :
    count Event.isHidlCb (since w (getCapabilities env w)) = 1 ∧
    capabilityResults (since w (getCapabilities env w))
      = [(if env.isHexagonAvailable w.probes then ErrorStatus.NONE
          else ErrorStatus.DEVICE_UNAVAILABLE,
          { float32Performance := { execTime := 100, powerUsage := 1 }
            quantized8Performance := { execTime := 100, powerUsage := 1 } })] ∧
    (∀ r ∈ capabilityResults (since w (getCapabilities env w)),
      (r.1 = ErrorStatus.NONE ↔ env.isHexagonAvailable w.probes = true) ∧
      (r.1 = ErrorStatus.DEVICE_UNAVAILABLE ↔ env.isHexagonAvailable w.probes = false) ∧
      r.2.float32Performance.execTime = 100 ∧ r.2.float32Performance.powerUsage = 1 ∧
      r.2.quantized8Performance.execTime = 100 ∧ r.2.quantized8Performance.powerUsage = 1 ∧
      0 ≤ r.2.float32Performance.execTime ∧ 0 ≤ r.2.float32Performance.powerUsage ∧
      0 ≤ r.2.quantized8Performance.execTime ∧ 0 ≤ r.2.quantized8Performance.powerUsage) ∧
    (getCapabilities env w).device = w.device := by
  cases hf : w.configure_nnlib <;> cases ha : env.isHexagonAvailable w.probes <;>
    simp [getCapabilities, configureHexagon, isHexagonAvailable, emit, since, count, hf, ha,
      Event.isHidlCb, capabilityResults]

/-- C8 on an unreachable accelerator in a fresh process: the one result is
DEVICE_UNAVAILABLE with the report of 100 and 1, whose numbers are non-negative. -/
theorem getCapabilities_report_witness :
    capabilityResults (since (World.boot Nat)
        (getCapabilities (sampleEnv true [false] true) (World.boot Nat)))
      = [(ErrorStatus.DEVICE_UNAVAILABLE,
          { float32Performance := { execTime := 100, powerUsage := 1 }
            quantized8Performance := { execTime := 100, powerUsage := 1 } })] ∧
    ∀ r ∈ capabilityResults (since (World.boot Nat)
        (getCapabilities (sampleEnv true [false] true) (World.boot Nat))),
      0 ≤ r.2.float32Performance.execTime ∧ 0 ≤ r.2.quantized8Performance.powerUsage :=
  have h := getCapabilities_report (sampleEnv true [false] true) (World.boot Nat)
  ⟨h.2.1, fun r hr => ⟨(h.2.2.1 r hr).2.2.2.2.2.2.1, (h.2.2.1 r hr).2.2.2.2.2.2.2.2.2⟩⟩

/-! ## Steps and sequences of steps -/

/-- What one step does to the trace, the once-flag and the stored status. -/
theorem step_facts (env : Env H) (s : Step) (w : World H) :
    w.trace <+: (step env s w).2.trace ∧
    (w.configure_nnlib = true →
      (step env s w).2.configure_nnlib = true ∧
      count Event.isConfig (since w (step env s w).2) = 0) ∧
    (s ≠ Step.call Call.getStatus → (step env s w).2.device = w.device) ∧
    ((w.device.mCurrentStatus = DeviceStatus.AVAILABLE ∨
        w.device.mCurrentStatus = DeviceStatus.OFFLINE) →
      ((step env s w).2.device.mCurrentStatus = DeviceStatus.AVAILABLE ∨
        (step env s w).2.device.mCurrentStatus = DeviceStatus.OFFLINE)) := by
  cases s with
  | call c =>
    cases c with
    | getCapabilities =>
      cases hf : w.configure_nnlib <;> cases ha : env.isHexagonAvailable w.probes <;>
        simp [step, call, getCapabilities, configureHexagon, isHexagonAvailable, emit, since,
          count, hf, ha, Event.isConfig]
    | getSupportedOperations model =>
      cases hf : w.configure_nnlib <;> cases hv : env.validateModel model <;>
        cases ha : env.isHexagonAvailable w.probes <;>
        simp [step, call, getSupportedOperations, configureHexagon, validateModel,
          isHexagonAvailable, hexagonModel, supportedOperations, emit, since, count, hf, hv, ha,
          Event.isConfig]
    | prepareModel model callback =>
      cases hf : w.configure_nnlib <;> cases callback <;> cases hv : env.validateModel model <;>
        cases ha : env.isHexagonAvailable w.probes <;>
        simp [step, call, prepareModel, configureHexagon, validateModel, isHexagonAvailable,
          emit, since, count, hf, hv, ha, Event.isConfig]
    | getStatus =>
      cases hf : w.configure_nnlib <;> cases ha : env.isHexagonAvailable w.probes <;>
        simp [step, call, getStatus, configureHexagon, isHexagonAvailable, emit, since, count,
          hf, ha, Event.isConfig]
  | thread i =>
    cases ht : w.threads[i]? with
    | none => simp [step, runThread, ht, since, count]
    | some t =>
      obtain ⟨model, cb⟩ := t
      cases hc : (env.compile (env.hexagonModel model)).1 <;>
        simp [step, runThread, ht, asyncPrepare, hexagonModel, compile, emit, since, count, hc,
          Event.isConfig]

/-- Actions of two consecutive stretches, concatenated. -/
theorem since_trans (w w1 w2 : World H) (h1 : w.trace <+: w1.trace)
    (h2 : w1.trace <+: w2.trace) : since w w2 = since w w1 ++ since w1 w2 := by
  obtain ⟨a, ha⟩ := h1
  obtain ⟨b, hb⟩ := h2
  simp [since, ← hb, ← ha]

/-- Counting over a concatenation. -/
theorem count_append (p : Event H → Bool) (a b : List (Event H)) :
    count p (a ++ b) = count p a + count p b := by
  simp [count]

/-- Running a sequence is running its first step, then the rest. -/
theorem exec_cons (env : Env H) (s : Step) (ss : List Step) (w : World H) :
    (exec env (s :: ss) w).2 = (exec env ss (step env s w).2).2 := rfl

/-- Running a concatenation is running its two parts in turn. -/
theorem exec_append (env : Env H) (a b : List Step) (w : World H) :
    (exec env (a ++ b) w).2 = (exec env b (exec env a w).2).2 := by
  induction a generalizing w with
  | nil => rfl
  | cons s ss ih => simp [exec_cons, ih]

/-- What a sequence of steps does to the trace, the once-flag and the stored status. -/
theorem exec_facts (env : Env H) (ss : List Step) (w : World H) :
    w.trace <+: (exec env ss w).2.trace ∧
    (w.configure_nnlib = true →
      (exec env ss w).2.configure_nnlib = true ∧
      count Event.isConfig (since w (exec env ss w).2) = 0) ∧
    (Step.call Call.getStatus ∉ ss → (exec env ss w).2.device = w.device) ∧
    ((w.device.mCurrentStatus = DeviceStatus.AVAILABLE ∨
        w.device.mCurrentStatus = DeviceStatus.OFFLINE) →
      ((exec env ss w).2.device.mCurrentStatus = DeviceStatus.AVAILABLE ∨
        (exec env ss w).2.device.mCurrentStatus = DeviceStatus.OFFLINE)) := by
  induction ss generalizing w with
  | nil => simp [exec, since, count]
  | cons s ss ih =>
    have hs := step_facts env s w
    have hr := ih (step env s w).2
    rw [exec_cons]
    refine ⟨hs.1.trans hr.1, ?_, ?_, ?_⟩
    · intro hf
      have h1 := hs.2.1 hf
      have h2 := hr.2.1 h1.1
      refine ⟨h2.1, ?_⟩
      rw [since_trans w _ _ hs.1 hr.1, count_append, h1.2, h2.2]
    · intro hn
      have hne : s ≠ Step.call Call.getStatus := fun h => hn (by simp [h])
      have hnm : Step.call Call.getStatus ∉ ss := fun h => hn (by simp [h])
      rw [hr.2.2.1 hnm, hs.2.2.1 hne]
    · intro hok
      exact hr.2.2.2 (hs.2.2.2 hok)

/-- The guard as seen from one entry-point call: the actions of the call begin
with the actions of the guard, the flag is set afterwards, and `config` runs
during the call exactly when the flag was not set before. -/
theorem call_facts (env : Env H) (c : Call) (w : World H) :
    since w (configureHexagon w)
      = (if w.configure_nnlib then [Event.callOnce] else [Event.callOnce, Event.config]) ∧
    since w (configureHexagon w) <+: since w (call env c w).2 ∧
    (call env c w).2.configure_nnlib = true ∧
    count Event.isConfig (since w (call env c w).2) = (if w.configure_nnlib then 0 else 1) := by
  cases c with
  | getCapabilities =>
    cases hf : w.configure_nnlib <;> cases ha : env.isHexagonAvailable w.probes <;>
      simp [call, getCapabilities, configureHexagon, isHexagonAvailable, emit, since,
        count, hf, ha, Event.isConfig]
  | getSupportedOperations model =>
    cases hf : w.configure_nnlib <;> cases hv : env.validateModel model <;>
      cases ha : env.isHexagonAvailable w.probes <;>
      simp [call, getSupportedOperations, configureHexagon, validateModel,
        isHexagonAvailable, hexagonModel, supportedOperations, emit, since, count, hf, hv, ha,
        Event.isConfig]
  | prepareModel model callback =>
    cases hf : w.configure_nnlib <;> cases callback <;> cases hv : env.validateModel model <;>
      cases ha : env.isHexagonAvailable w.probes <;>
      simp [call, prepareModel, configureHexagon, validateModel, isHexagonAvailable,
        emit, since, count, hf, hv, ha, Event.isConfig]
  | getStatus =>
    cases hf : w.configure_nnlib <;> cases ha : env.isHexagonAvailable w.probes <;>
      simp [call, getStatus, configureHexagon, isHexagonAvailable, emit, since, count,
        hf, ha, Event.isConfig]

/-! ## C9: the device-status state machine -/

/-- C9. A newly constructed `Device` stores AVAILABLE.  `getCapabilities`,
`getSupportedOperations`, `prepareModel` (with any callback argument), the
thread body `asyncPrepare` and the run of any pending thread leave the `Device`
object unchanged, and so does every sequence of steps without a `getStatus`
call: the stored status is written only by `getStatus`.  After any finite
sequence `ss` of entry-point calls and thread runs, started from a world whose
`Device` has just been constructed and with arbitrary collaborators, the stored
status is AVAILABLE or OFFLINE and not BUSY; it is AVAILABLE if `ss` has no
`getStatus` call; and after a sequence whose last `getStatus` call comes after
the steps `pre` and before the steps `post`, it is the value which that
`getStatus` call returned. -/
theorem device_status_state_machine (env : Env H) (w : World H) (model : Model)
    (callback : Option Callback) (cb : Callback) (i : Nat) (ss pre post : List Step) :
    Device.new.mCurrentStatus = DeviceStatus.AVAILABLE ∧
    ((getCapabilities env w).device = w.device ∧
      (getSupportedOperations env model w).device = w.device ∧
      (prepareModel env model callback w).2.device = w.device ∧
      (asyncPrepare env model cb w).device = w.device ∧
      (runThread env i w).device = w.device) ∧
    (Step.call Call.getStatus ∉ ss → (exec env ss w).2.device = w.device) ∧
    (((exec env ss { w with device := Device.new }).2.device.mCurrentStatus
          = DeviceStatus.AVAILABLE ∨
        (exec env ss { w with device := Device.new }).2.device.mCurrentStatus
          = DeviceStatus.OFFLINE) ∧
      (exec env ss { w with device := Device.new }).2.device.mCurrentStatus
        ≠ DeviceStatus.BUSY) ∧
    (Step.call Call.getStatus ∉ ss →
      (exec env ss { w with device := Device.new }).2.device.mCurrentStatus
        = DeviceStatus.AVAILABLE) ∧
    (Step.call Call.getStatus ∉ post →
      (exec env (pre ++ Step.call Call.getStatus :: post)
          { w with device := Device.new }).2.device.mCurrentStatus
        = (getStatus env (exec env pre { w with device := Device.new }).2).1) := by
  have hok := (exec_facts env ss { w with device := Device.new }).2.2.2
    (Or.inl (by simp [Device.new]))
  refine ⟨rfl, ⟨?_, ?_, ?_, ?_, ?_⟩, (exec_facts env ss w).2.2.1, ⟨hok, ?_⟩, ?_, ?_⟩
  · exact (step_facts env (Step.call Call.getCapabilities) w).2.2.1 (by simp)
  · exact (step_facts env (Step.call (Call.getSupportedOperations model)) w).2.2.1 (by simp)
  · exact (step_facts env (Step.call (Call.prepareModel model callback)) w).2.2.1 (by simp)
  · cases hc : (env.compile (env.hexagonModel model)).1 <;>
      simp [asyncPrepare, hexagonModel, compile, emit, hc]
  · exact (step_facts env (Step.thread i) w).2.2.1 (by simp)
  · rcases hok with h | h <;> simp [h]
  · intro hn
    rw [(exec_facts env ss { w with device := Device.new }).2.2.1 hn]
    rfl
  · intro hn
    rw [exec_append, exec_cons, (exec_facts env post _).2.2.1 hn]
    cases hf : (exec env pre { w with device := Device.new }).2.configure_nnlib <;>
      simp [step, call, getStatus, configureHexagon, isHexagonAvailable, emit, hf]

/-- C9 on a concrete run in a fresh process: a status query while reachable, a
preparation, its thread, a status query while unreachable, a capability query.
The stored status ends as OFFLINE, the value of the second status query. -/
theorem device_status_state_machine_witness :
    Step.call Call.getStatus ∉ [Step.call Call.getCapabilities] ∧
      (exec (sampleEnv true [true, true, false, true] true)
          ([Step.call Call.getStatus, Step.call (Call.prepareModel sampleModel (some 7)),
              Step.thread 0]
            ++ Step.call Call.getStatus :: [Step.call Call.getCapabilities])
          { World.boot Nat with device := Device.new }).2.device.mCurrentStatus
        = (getStatus (sampleEnv true [true, true, false, true] true)
            (exec (sampleEnv true [true, true, false, true] true)
              [Step.call Call.getStatus, Step.call (Call.prepareModel sampleModel (some 7)),
                Step.thread 0]
              { World.boot Nat with device := Device.new }).2).1 ∧
      (getStatus (sampleEnv true [true, true, false, true] true)
            (exec (sampleEnv true [true, true, false, true] true)
              [Step.call Call.getStatus, Step.call (Call.prepareModel sampleModel (some 7)),
                Step.thread 0]
              { World.boot Nat with device := Device.new }).2).1 = DeviceStatus.OFFLINE :=
  ⟨by decide,
    (device_status_state_machine (sampleEnv true [true, true, false, true] true)
      (World.boot Nat) sampleModel none 0 0 []
      [Step.call Call.getStatus, Step.call (Call.prepareModel sampleModel (some 7)),
        Step.thread 0]
      [Step.call Call.getCapabilities]).2.2.2.2.2 (by decide),
    by decide⟩

/-! ## C10: the runtime configuration guard -/

/-- C10. In every world, every entry-point call (any of the four, with any
arguments, a null callback included) begins with the guard: the actions of the
call start with the actions of `configureHexagon`, which are the entry into
`call_once` followed, exactly when the once-flag was not yet set, by `config`;
a `prepareModel` call with a null callback performs the guard and nothing
else; after the guard the flag is set, and running the guard again does not
run `config` again.  In a process whose once-flag is not yet set, for every
sequence of steps that starts with an entry-point call `c` and continues with
any calls and thread runs `rest`, with any collaborator answers: `config` runs
exactly once during the first call and exactly once in the whole sequence, it
is the second action of the sequence, right after the entry into `call_once`,
and every availability probe comes later in the trace. -/
theorem configuration_guard_first_and_once (env : Env H) (c : Call) (rest : List Step)
    (w : World H) (hw : w.configure_nnlib = false) :
    (∀ (c0 : Call) (w0 : World H),
      since w0 (configureHexagon w0)
        = (if w0.configure_nnlib then [Event.callOnce]
           else [Event.callOnce, Event.config]) ∧
      since w0 (configureHexagon w0) <+: since w0 (call env c0 w0).2 ∧
      (since w0 (call env c0 w0).2).head? = some Event.callOnce) ∧
    (∀ (model : Model) (w0 : World H),
      since w0 (prepareModel env model none w0).2 = since w0 (configureHexagon w0)) ∧
    (∀ w0 : World H,
      (configureHexagon w0).configure_nnlib = true ∧
      count Event.isConfig (since (configureHexagon w0) (configureHexagon (configureHexagon w0)))
        = 0) ∧
    count Event.isConfig (since w (call env c w).2) = 1 ∧
    count Event.isConfig (since w (exec env (Step.call c :: rest) w).2) = 1 ∧
    (since w (exec env (Step.call c :: rest) w).2).take 2 = [Event.callOnce, Event.config] ∧
    (∀ (i : Nat) (e : Event H),
      (since w (exec env (Step.call c :: rest) w).2)[i]? = some e → e.isProbe = true →
      1 < i) := by
  have hc := call_facts env c w
  have hs : w.trace <+: (call env c w).2.trace := (step_facts env (Step.call c) w).1
  have hr := exec_facts env rest (call env c w).2
  have hcount : count Event.isConfig (since w (call env c w).2) = 1 := by
    rw [hc.2.2.2]; simp [hw]
  have hsplit : since w (exec env (Step.call c :: rest) w).2
      = since w (call env c w).2 ++ since (call env c w).2 (exec env rest (call env c w).2).2 :=
    since_trans w _ _ hs hr.1
  obtain ⟨t, ht⟩ := hc.2.1
  rw [hc.1] at ht
  simp only [hw, Bool.false_eq_true, if_false] at ht
  have hshape : since w (exec env (Step.call c :: rest) w).2
      = Event.callOnce :: Event.config ::
          (t ++ since (call env c w).2 (exec env rest (call env c w).2).2) := by
    rw [hsplit, ← ht]; rfl
  refine ⟨?_, ?_, ?_, hcount, ?_, ?_, ?_⟩
  · intro c0 w0
    have h0 := call_facts env c0 w0
    refine ⟨h0.1, h0.2.1, ?_⟩
    obtain ⟨t0, ht0⟩ := h0.2.1
    rw [← ht0, h0.1]
    cases w0.configure_nnlib <;> rfl
  · intro model w0
    cases hf : w0.configure_nnlib <;> simp [prepareModel, configureHexagon, emit, since, hf]
  · intro w0
    cases hf : w0.configure_nnlib <;>
      simp [configureHexagon, emit, since, count, hf, Event.isConfig]
  · rw [hsplit, count_append, hcount, (hr.2.1 hc.2.2.1).2]
  · rw [hshape]; rfl
  · intro i e hi hp
    rw [hshape] at hi
    match i, hi with
    | 0, hi =>
      simp at hi
      subst hi
      simp [Event.isProbe] at hp
    | 1, hi =>
      simp at hi
      subst hi
      simp [Event.isProbe] at hp
    | n + 2, _ => omega

/-- C10 on a fresh process: a `prepareModel` call with a null callback, then a
status query.  `config` runs once, as the second action, before the probe. -/
theorem configuration_guard_first_and_once_witness :
    (World.boot Nat).configure_nnlib = false ∧
      count Event.isConfig (since (World.boot Nat)
        (exec (sampleEnv true [true] true)
          (Step.call (Call.prepareModel sampleModel none) :: [Step.call Call.getStatus])
          (World.boot Nat)).2) = 1 ∧
      (since (World.boot Nat)
        (exec (sampleEnv true [true] true)
          (Step.call (Call.prepareModel sampleModel none) :: [Step.call Call.getStatus])
          (World.boot Nat)).2).take 2 = [Event.callOnce, Event.config] :=
  have h := configuration_guard_first_and_once (sampleEnv true [true] true)
    (Call.prepareModel sampleModel none) [Step.call Call.getStatus] (World.boot Nat) rfl
  ⟨rfl, h.2.2.2.2.1, h.2.2.2.2.2.1⟩

end Hvx
